import Mathlib

/-!
  # Pricky_Backend — shallow embedding and verification

  A shallow embedding of the Pricky backend (FastAPI + SQLAlchemy + two
  external services) and proofs about its observable behaviour.

  * The database is a pair of in-memory tables (`sessions`, `messages`)
    threaded explicitly through the handlers; `created_at` / `timestamp`
    columns are a logical clock (a `Nat` ticked on each commit that sets a
    default timestamp).
  * The LLM HTTP endpoint, the SMTP relay and the uuid4 generator are
    external collaborators; they enter as oracle parameters (`LLMCall`,
    `SmtpOutcome`, `freshUuid`) so that every handler is a total function
    of its inputs and the oracle outcome.
  * Python string primitives used by the handlers (str.strip, str.split
    with no separator, str.capitalize, str.join) are re-implemented over
    `List Char` by structural recursion so that every definition reduces
    in the kernel.
-/

namespace Pricky

/-! ## Python string primitives -/

/-- Python str.strip with no argument: drop leading and trailing
whitespace. -/
def pyStrip (s : String) : String :=
  ⟨((s.data.dropWhile Char.isWhitespace).reverse.dropWhile Char.isWhitespace).reverse⟩

/-- Helper for `pyWords`: scan the character list, accumulating the
current word in reverse. -/
def pyWordsAux : List Char → List Char → List String
  | [], [] => []
  | [], acc => [⟨acc.reverse⟩]
  | c :: cs, acc =>
    if c.isWhitespace then
      match acc with
      | [] => pyWordsAux cs []
      | _ => (⟨acc.reverse⟩ : String) :: pyWordsAux cs []
    else pyWordsAux cs (c :: acc)

/-- Python str.split with no argument: the maximal runs of
non-whitespace characters, with no empty pieces. -/
def pyWords (s : String) : List String :=
  pyWordsAux s.data []

/-- Python str.capitalize: first character upper-cased, every other
character lower-cased. -/
def pyCapitalize (s : String) : String :=
  match s.data with
  | [] => s
  | c :: cs => ⟨c.toUpper :: cs.map Char.toLower⟩

/-- Python "\n".join over a list of strings. -/
def joinLines : List String → String
  | [] => ""
  | [x] => x
  | x :: xs => x ++ "\n" ++ joinLines xs

/-- Helper for `splitLines`: split a character list at newline
characters, keeping empty pieces. -/
def splitLinesAux : List Char → List Char → List String
  | [], acc => [⟨acc.reverse⟩]
  | c :: cs, acc =>
    if c = '\n' then (⟨acc.reverse⟩ : String) :: splitLinesAux cs []
    else splitLinesAux cs (c :: acc)

/-- The lines of a string: inverse view of joining with a newline. -/
def splitLines (s : String) : List String :=
  splitLinesAux s.data []

/-- Python truthiness of an Optional[str]: None and the empty string are
falsy, every other string is truthy. -/
def pyTruthy : Option String → Bool
  | none => false
  | some s => s ≠ ""

/-- Python expression a or b on an Optional[str] a and a str b:
the first operand when it is truthy, otherwise the second. -/
def pyOrStr (a : Option String) (b : String) : String :=
  match a with
  | some s => if s = "" then b else s
  | none => b

/-! ## Data model (src/app/main.py, classes Session and Message)

  Session: id (String primary key), created_at (DateTime default utcnow),
  messages relationship. Message: id (Integer autoincrement primary key),
  session_id (ForeignKey sessions.id), sender, content, timestamp
  (DateTime default utcnow). Timestamps are modelled by the logical
  clock of `DBState`. -/

/-- A row of the sessions table. -/
structure Session where
  id : String
  created_at : Nat
deriving Repr, DecidableEq

/-- A row of the messages table. -/
structure Message where
  id : Nat
  session_id : String
  sender : String
  content : String
  timestamp : Nat
deriving Repr, DecidableEq

/-- The persistent store: both tables in insertion order, the
autoincrement counter for Message.id, and the logical clock stamped into
created_at / timestamp defaults. -/
structure DBState where
  sessions : List Session
  messages : List Message
  nextMsgId : Nat
  clock : Nat
deriving Repr, DecidableEq

/-- An empty, freshly initialised store (after Base.metadata.create_all). -/
def db0 : DBState :=
  { sessions := [], messages := [], nextMsgId := 1, clock := 0 }

/-! ## LLM Gateway (src/llm_client.py, query_together) -/

/-- The observable part of the HTTP response from the chat-completion
endpoint: the status code, and the string at choices[0].message.content
when the body is well-formed JSON carrying that field (`none` models a
malformed body or a missing field, both of which raise during parsing
and indexing). -/
structure LLMHttpResponse where
  status : Nat
  contentField : Option String
deriving Repr, DecidableEq

/-- Outcome of the single HTTP POST issued by query_together: either a
response arrived, or the request failed at the transport level (network
error, timeout). -/
inductive LLMCall where
  | response (r : LLMHttpResponse)
  | networkError
deriving Repr, DecidableEq

/-- The fixed user-facing fallback string returned by query_together on
any failure. -/
def llmFallback : String := "⚠️ Failed to contact LLM."

/-- src/llm_client.py, query_together. The whole body sits in one
try/except returning `llmFallback`, so the function never raises: a
transport failure, a non-2xx status (raise_for_status), a malformed body
or a missing field all land in the except arm. On success the content
field is stripped. The second component counts the HTTP requests issued:
exactly one in every branch (no retry loop in the source). -/
def query_together (prompt : String) (call : LLMCall) : String × Nat :=
  match call with
  | .networkError => (llmFallback, 1)
  | .response r =>
    if 200 ≤ r.status ∧ r.status < 300 then
      match r.contentField with
      | some c => (pyStrip c, 1)
      | none => (llmFallback, 1)
    else (llmFallback, 1)

/-- The failure modes of the LLM call enumerated by the spec: network
error, non-2xx status, malformed body or missing field. -/
def llmCallFails : LLMCall → Bool
  | .networkError => true
  | .response r => !(decide (200 ≤ r.status ∧ r.status < 300)) || r.contentField == none

/-! ## Email Dispatcher (src/app/services/send_email.py, send_email) -/

/-- Outcome of the SMTP conversation attempted by send_email: delivery,
or one of the failures the except arm absorbs. -/
inductive SmtpOutcome where
  | delivered
  | connectionError
  | authError
  | protocolError
deriving Repr, DecidableEq

/-- What a call to send_email did: the boolean it returned, whether an
SMTP connection was attempted at all, and how many connection attempts
were made. -/
structure EmailResult where
  success : Bool
  connectionAttempted : Bool
  attempts : Nat
deriving Repr, DecidableEq

/-- src/app/services/send_email.py, send_email. The credential check is
Python truthiness (if not EMAIL_USER or not EMAIL_PASS), so an unset or
empty credential returns False before any connection. The SMTP block
sits in one try/except returning False, so the function never raises and
makes at most one attempt. -/
def send_email (emailUser emailPass : Option String)
    (smtp : SmtpOutcome) (subject body : String) : EmailResult :=
  if !pyTruthy emailUser || !pyTruthy emailPass then
    { success := false, connectionAttempted := false, attempts := 0 }
  else
    match smtp with
    | .delivered => { success := true, connectionAttempted := true, attempts := 1 }
    | _ => { success := false, connectionAttempted := true, attempts := 1 }

/-! ## Chat Orchestrator (src/app/main.py, POST /chat) -/

/-- The request body of POST /chat (pydantic model ChatMessage):
message is required, session_id is optional with default None. -/
structure ChatMessage where
  message : String
  session_id : Option String
deriving Repr, DecidableEq

/-- The response of POST /chat: an HTTPException with status 400 and a
detail string, or a 200 JSON body with response and session_id. -/
inductive ChatResponse where
  | badRequest (detail : String)
  | ok (response : String) (session_id : String)
deriving Repr, DecidableEq

/-- The grounding prompt built by chat: the fixed instruction template
around the knowledge context and the validated question (the f-string at
src/app/main.py lines 114-124). -/
def buildPrompt (varun_context question : String) : String :=
  "\nYou are a helpful AI assistant who answers ONLY questions about Varun Gandhi.\n\nHere is all the information you know:\n\"\"\"\n"
    ++ varun_context
    ++ "\n\"\"\"\n\nAnswer this question in a friendly, natural tone:\n\""
    ++ question ++ "\"\n"

/-- Whether a session row with the given primary key exists —
db.get(Session, session_id) viewed as a membership test (the handler
only uses the result for truthiness). -/
def dbGetSessionExists (db : DBState) (sid : String) : Bool :=
  db.sessions.any fun s => s.id == sid

/-- The session-creation step of chat (src/app/main.py lines 108-112):
fetch by primary key; when absent, add a Session row with that id and
the default created_at, and commit. -/
def getOrCreateSession (db : DBState) (sid : String) : DBState :=
  if dbGetSessionExists db sid then db
  else
    { db with
      sessions := db.sessions ++ [{ id := sid, created_at := db.clock }]
      clock := db.clock + 1 }

/-- src/app/main.py, chat. Strips the message, rejects with 400 when
empty or over 60 words, resolves the session id by Python truthiness
(msg.session_id or str(uuid4())), ensures the Session row, queries the
LLM, and commits the user/bot Message pair with one add_all and one
commit. The try/except around query_together (lines 125-128) is
unreachable because query_together catches every exception itself, so
the embedding calls it directly. The uuid4 draw enters as `freshUuid`
and the LLM outcome as `llm`. -/
def chat (varun_context freshUuid : String) (llm : LLMCall)
    (msg : ChatMessage) (db : DBState) : ChatResponse × DBState :=
  let question := pyStrip msg.message
  if question = "" then
    (.badRequest "❌ Please ask a valid question.", db)
  else if 60 < (pyWords question).length then
    (.badRequest "❌ Please keep your question within 60 words.", db)
  else
    let session_id := pyOrStr msg.session_id freshUuid
    let db1 := getOrCreateSession db session_id
    let result := (query_together (buildPrompt varun_context question) llm).1
    let db2 :=
      { db1 with
        messages := db1.messages ++
          [{ id := db1.nextMsgId, session_id := session_id, sender := "user",
             content := question, timestamp := db1.clock },
           { id := db1.nextMsgId + 1, session_id := session_id, sender := "bot",
             content := result, timestamp := db1.clock }]
        nextMsgId := db1.nextMsgId + 2
        clock := db1.clock + 1 }
    (.ok ("🤖 " ++ result) session_id, db2)

/-! ## Admin History Service (src/app/main.py, POST /admin/history) -/

/-- The response of POST /admin/history: an HTTPException with status
403, or the 200 dump pairing each session with its message rows. -/
inductive AdminResponse where
  | forbidden (detail : String)
  | ok (sessions : List (Session × List Message))
deriving Repr, DecidableEq

/-- The message rows of one session, in table insertion order — the
denotation of the messages relationship on Session. -/
def sessionMessages (db : DBState) (sid : String) : List Message :=
  db.messages.filter fun m => m.session_id == sid

/-- The ordering ORDER BY created_at DESC sorts by: newer (or equal)
timestamps first. -/
def createdDesc (a b : Session) : Prop :=
  b.created_at ≤ a.created_at

instance : DecidableRel createdDesc := fun a b =>
  inferInstanceAs (Decidable (b.created_at ≤ a.created_at))

instance : IsTotal Session createdDesc :=
  ⟨fun a b => Nat.le_total b.created_at a.created_at⟩

instance : IsTrans Session createdDesc :=
  ⟨fun _ _ _ h h' => Nat.le_trans h' h⟩

/-- select(Session).order_by(Session.created_at.desc()): the sessions
table sorted by created_at descending (SQL fixes the key order only, so
any sorted permutation is a faithful model). -/
def listSessionsByCreatedDesc (db : DBState) : List Session :=
  db.sessions.insertionSort createdDesc

/-- The 200 body of admin_history: every session, newest first, paired
with its messages. -/
def adminDump (db : DBState) : List (Session × List Message) :=
  (listSessionsByCreatedDesc db).map fun s => (s, sessionMessages db s.id)

/-- src/app/main.py, admin_history. Exact string comparison of the
presented secret against the configured ADMIN_SECRET; 403 on mismatch,
otherwise the full dump. The handler only runs a SELECT, so the store
is returned unchanged. -/
def admin_history (adminSecret secret : String) (db : DBState) :
    AdminResponse × DBState :=
  if secret ≠ adminSecret then (.forbidden "❌ Unauthorized", db)
  else (.ok (adminDump db), db)

/-! ## Feedback Relay (src/app/main.py, POST /send-feedback)

  The arbitrary JSON payload is modelled as an association list of
  string keys and string values in insertion order (Python dict keys are
  unique and iterate in insertion order). -/

/-- The subject chosen by send_feedback: the contact-form subject
exactly when data.get("type") equals "contact". -/
def feedbackSubject (data : List (String × String)) : String :=
  if data.lookup "type" == some "contact" then "New Contact Form Submission"
  else "New Issue Report"

/-- One body line of the feedback email: the capitalized key, a colon
and space, and the value. -/
def feedbackLine (kv : String × String) : String :=
  pyCapitalize kv.1 ++ ": " ++ kv.2

/-- The body of the feedback email: every key/value pair formatted by
`feedbackLine`, joined by newlines. -/
def feedbackBody (data : List (String × String)) : String :=
  joinLines (data.map feedbackLine)

/-- The response of POST /send-feedback: 200 with a fixed message, or
an HTTPException with status 500. -/
inductive FeedbackResponse where
  | ok (message : String)
  | serverError (detail : String)
deriving Repr, DecidableEq

/-- src/app/main.py, send_feedback: build subject and body, dispatch
through send_email, 500 when it returns False. -/
def send_feedback (emailUser emailPass : Option String) (smtp : SmtpOutcome)
    (data : List (String × String)) : FeedbackResponse :=
  if (send_email emailUser emailPass smtp
        (feedbackSubject data) (feedbackBody data)).success then
    .ok "Email sent successfully"
  else .serverError "Failed to send email"

/-! ## Session-creation race (src/app/main.py lines 107-112)

  The handler reads the session row and then inserts it in two separate
  awaited database round-trips, with no exception handling around the
  commit. The database enforces the primary-key constraint on
  sessions.id: a commit inserting a duplicate id raises IntegrityError.
  The two-phase model below makes one request's read outcome and its
  commit separate steps, so interleavings of two requests can be
  evaluated. -/

/-- Outcome of committing a pending session insert against the store:
the new store, or the IntegrityError the primary-key constraint raises
on a duplicate id. -/
inductive PgCommit where
  | committed (db : DBState)
  | integrityError (detail : String)
deriving Repr, DecidableEq

/-- The commit of db.add(Session(id=session_id)): the database rejects
a duplicate primary key. -/
def insertSessionCommit (db : DBState) (sid : String) : PgCommit :=
  if dbGetSessionExists db sid then
    .integrityError "duplicate key value violates unique constraint on sessions primary key"
  else
    .committed
      { db with
        sessions := db.sessions ++ [{ id := sid, created_at := db.clock }]
        clock := db.clock + 1 }

/-- One request's session-creation phase, parameterised by what its
earlier db.get observed: when the row was seen, do nothing; otherwise
run the unguarded insert-and-commit. -/
def chatSessionStep (sawExists : Bool) (db : DBState) (sid : String) : PgCommit :=
  if sawExists then .committed db else insertSessionCommit db sid

/-- The schedule in which two requests for the same absent session id
both perform their db.get before either commits, then commit in turn:
the outcome seen by the second request. -/
def raceSecondOutcome (db : DBState) (sid : String) : PgCommit :=
  let sawA := dbGetSessionExists db sid
  let sawB := dbGetSessionExists db sid
  match chatSessionStep sawA db sid with
  | .committed db1 => chatSessionStep sawB db1 sid
  | .integrityError d => .integrityError d

/-! ## Example store for witnesses -/

/-- Example store for witnesses: two sessions, the older one holding a
full exchange. -/
def dbEx : DBState :=
  { sessions := [{ id := "a", created_at := 0 }, { id := "b", created_at := 2 }]
    messages :=
      [{ id := 1, session_id := "a", sender := "user", content := "q", timestamp := 1 },
       { id := 2, session_id := "a", sender := "bot", content := "r", timestamp := 1 }]
    nextMsgId := 3
    clock := 3 }

/-! ## Characterisation lemmas -/

lemma getOrCreateSession_messages (db : DBState) (sid : String) :
    (getOrCreateSession db sid).messages = db.messages := by
  unfold getOrCreateSession; split <;> rfl

lemma getOrCreateSession_nextMsgId (db : DBState) (sid : String) :
    (getOrCreateSession db sid).nextMsgId = db.nextMsgId := by
  unfold getOrCreateSession; split <;> rfl

lemma getOrCreateSession_sessions (db : DBState) (sid : String) :
    (getOrCreateSession db sid).sessions =
      if dbGetSessionExists db sid then db.sessions
      else db.sessions ++ [{ id := sid, created_at := db.clock }] := by
  unfold getOrCreateSession; split <;> rfl

lemma chat_of_empty (varun_context freshUuid : String) (llm : LLMCall)
    (msg : ChatMessage) (db : DBState) (h : pyStrip msg.message = "") :
    chat varun_context freshUuid llm msg db =
      (.badRequest "❌ Please ask a valid question.", db) := by
  simp only [chat]
  rw [if_pos h]

lemma pyWords_nil_of_empty : pyWords "" = [] := rfl

lemma chat_of_toolong (varun_context freshUuid : String) (llm : LLMCall)
    (msg : ChatMessage) (db : DBState)
    (h : 60 < (pyWords (pyStrip msg.message)).length) :
    chat varun_context freshUuid llm msg db =
      (.badRequest "❌ Please keep your question within 60 words.", db) := by
  have hne : pyStrip msg.message ≠ "" := by
    intro he
    rw [he] at h
    simp [pyWords_nil_of_empty] at h
  simp only [chat]
  rw [if_neg hne, if_pos h]

/-- On a validated message, chat answers 200 with the prefixed LLM reply
and the resolved session id, and commits the session row and the two
message rows. -/
lemma chat_of_valid (varun_context freshUuid : String) (llm : LLMCall)
    (msg : ChatMessage) (db : DBState)
    (hne : pyStrip msg.message ≠ "")
    (hlen : (pyWords (pyStrip msg.message)).length ≤ 60) :
    chat varun_context freshUuid llm msg db =
      (ChatResponse.ok
          ("🤖 " ++ (query_together (buildPrompt varun_context (pyStrip msg.message)) llm).1)
          (pyOrStr msg.session_id freshUuid),
       { getOrCreateSession db (pyOrStr msg.session_id freshUuid) with
         messages :=
           (getOrCreateSession db (pyOrStr msg.session_id freshUuid)).messages ++
             [{ id := db.nextMsgId, session_id := pyOrStr msg.session_id freshUuid,
                sender := "user", content := pyStrip msg.message,
                timestamp := (getOrCreateSession db (pyOrStr msg.session_id freshUuid)).clock },
              { id := db.nextMsgId + 1, session_id := pyOrStr msg.session_id freshUuid,
                sender := "bot",
                content := (query_together (buildPrompt varun_context (pyStrip msg.message)) llm).1,
                timestamp := (getOrCreateSession db (pyOrStr msg.session_id freshUuid)).clock }]
         nextMsgId := db.nextMsgId + 2
         clock := (getOrCreateSession db (pyOrStr msg.session_id freshUuid)).clock + 1 }) := by
  simp only [chat]
  rw [if_neg hne, if_neg (Nat.not_lt.mpr hlen), getOrCreateSession_nextMsgId]

lemma append_bot_reply_ne_empty (s : String) : ("🤖 " ++ s) ≠ "" := by
  intro h
  have h2 := congrArg String.data h
  rw [String.data_append] at h2
  simp at h2

lemma pyOrStr_some_of_ne (s b : String) (h : s ≠ "") : pyOrStr (some s) b = s := by
  simp [pyOrStr, h]

lemma query_together_of_fails (prompt : String) (call : LLMCall)
    (h : llmCallFails call = true) :
    query_together prompt call = (llmFallback, 1) := by
  cases call with
  | networkError => rfl
  | response r =>
    simp only [llmCallFails, Bool.or_eq_true, Bool.not_eq_true',
      decide_eq_false_iff_not, beq_iff_eq] at h
    simp only [query_together]
    rcases h with h | h
    · rw [if_neg h]
    · split
      · rw [h]
      · rfl

lemma query_together_attempts (prompt : String) (call : LLMCall) :
    (query_together prompt call).2 = 1 := by
  cases call with
  | networkError => rfl
  | response r =>
    simp only [query_together]
    split
    · cases r.contentField <;> rfl
    · rfl

lemma adminDump_map_fst (db : DBState) :
    (adminDump db).map Prod.fst = listSessionsByCreatedDesc db := by
  simp [adminDump, Function.comp_def]

lemma chat_sessions_of_valid (varun_context freshUuid : String) (llm : LLMCall)
    (msg : ChatMessage) (db : DBState)
    (hne : pyStrip msg.message ≠ "")
    (hlen : (pyWords (pyStrip msg.message)).length ≤ 60) :
    (chat varun_context freshUuid llm msg db).2.sessions
      = (getOrCreateSession db (pyOrStr msg.session_id freshUuid)).sessions := by
  rw [chat_of_valid varun_context freshUuid llm msg db hne hlen]

lemma chat_messages_length_of_valid (varun_context freshUuid : String) (llm : LLMCall)
    (msg : ChatMessage) (db : DBState)
    (hne : pyStrip msg.message ≠ "")
    (hlen : (pyWords (pyStrip msg.message)).length ≤ 60) :
    (chat varun_context freshUuid llm msg db).2.messages.length
      = db.messages.length + 2 := by
  rw [chat_of_valid varun_context freshUuid llm msg db hne hlen]
  simp [getOrCreateSession_messages]

lemma joinLines_mem_split (x : String) (l : List String) (hx : x ∈ l) :
    ∃ pre post, joinLines l = pre ++ x ++ post := by
  induction l with
  | nil => cases hx
  | cons y ys ih =>
    rcases List.mem_cons.mp hx with h | h
    · subst h
      cases ys with
      | nil =>
        exact ⟨"", "", by simp [joinLines]⟩
      | cons z zs =>
        refine ⟨"", "\n" ++ joinLines (z :: zs), ?_⟩
        show x ++ "\n" ++ joinLines (z :: zs) = "" ++ x ++ ("\n" ++ joinLines (z :: zs))
        rw [String.empty_append, String.append_assoc]
    · cases ys with
      | nil => cases h
      | cons z zs =>
        obtain ⟨pre, post, hpp⟩ := ih h
        refine ⟨y ++ "\n" ++ pre, post, ?_⟩
        show y ++ "\n" ++ joinLines (z :: zs) = y ++ "\n" ++ pre ++ x ++ post
        rw [hpp]
        simp [String.append_assoc]

/-! ## Claims -/

/-- C1, as stated, fails on the empty-string session id: the request
with message "hi" and session_id "" is answered 200, but the returned
session id is the freshly drawn uuid, not the client-supplied (present)
empty string. -/
theorem C1_counterexample_empty_session_id :
    (chat "ctx" "uuid-1" LLMCall.networkError
        { message := "hi", session_id := some "" } db0).1
      = ChatResponse.ok ("🤖 " ++ llmFallback) "uuid-1"
    ∧ ("uuid-1" : String) ≠ "" := by
  exact ⟨by decide, by decide⟩

/-- C1 (amended): for every request to /chat whose message is non-empty
after trimming and has at most 60 words, the endpoint returns 200 with a
non-empty response string, and the session_id of the response is the
client-supplied one when it is present and non-empty, otherwise the
freshly generated uuid. -/
theorem C1_chat_valid_ok (varun_context freshUuid : String) (llm : LLMCall)
    (msg : ChatMessage) (db : DBState)
    (hne : pyStrip msg.message ≠ "")
    (hlen : (pyWords (pyStrip msg.message)).length ≤ 60) :
    (chat varun_context freshUuid llm msg db).1
      = ChatResponse.ok
          ("🤖 " ++ (query_together (buildPrompt varun_context (pyStrip msg.message)) llm).1)
          (pyOrStr msg.session_id freshUuid)
    ∧ ("🤖 " ++ (query_together (buildPrompt varun_context (pyStrip msg.message)) llm).1) ≠ ""
    ∧ (∀ sid, msg.session_id = some sid → sid ≠ "" →
        pyOrStr msg.session_id freshUuid = sid)
    ∧ ((msg.session_id = none ∨ msg.session_id = some "") →
        pyOrStr msg.session_id freshUuid = freshUuid) := by
  refine ⟨?_, append_bot_reply_ne_empty _, ?_, ?_⟩
  · rw [chat_of_valid varun_context freshUuid llm msg db hne hlen]
  · intro sid hs hne'
    rw [hs]
    exact pyOrStr_some_of_ne sid freshUuid hne'
  · intro h
    rcases h with h | h <;> rw [h] <;> rfl

theorem C1_chat_valid_ok_witness :
    (chat "ctx" "u-1" LLMCall.networkError
        { message := " hi ", session_id := some "s1" } db0).1
      = ChatResponse.ok ("🤖 " ++ llmFallback) "s1" := by
  have h := C1_chat_valid_ok "ctx" "u-1" LLMCall.networkError
      { message := " hi ", session_id := some "s1" } db0 (by decide) (by decide)
  exact h.1.trans (by decide)

/-- C2: a request whose message is empty after trimming, or exceeds 60
words, is answered 400, and neither table changes. -/
theorem C2_invalid_rejected_nothing_persisted (varun_context freshUuid : String)
    (llm : LLMCall) (msg : ChatMessage) (db : DBState)
    (h : pyStrip msg.message = "" ∨ 60 < (pyWords (pyStrip msg.message)).length) :
    (∃ detail, (chat varun_context freshUuid llm msg db).1
        = ChatResponse.badRequest detail)
    ∧ (chat varun_context freshUuid llm msg db).2.sessions = db.sessions
    ∧ (chat varun_context freshUuid llm msg db).2.messages = db.messages := by
  rcases h with h | h
  · rw [chat_of_empty varun_context freshUuid llm msg db h]
    exact ⟨⟨_, rfl⟩, rfl, rfl⟩
  · rw [chat_of_toolong varun_context freshUuid llm msg db h]
    exact ⟨⟨_, rfl⟩, rfl, rfl⟩

theorem C2_invalid_rejected_nothing_persisted_witness :
    (chat "ctx" "u-1" LLMCall.networkError
        { message := "   ", session_id := some "s1" } db0).2.sessions = ([] : List Session)
    ∧ (chat "ctx" "u-1" LLMCall.networkError
        { message := "   ", session_id := some "s1" } db0).2.messages = ([] : List Message) := by
  have h := C2_invalid_rejected_nothing_persisted "ctx" "u-1" LLMCall.networkError
      { message := "   ", session_id := some "s1" } db0 (Or.inl (by decide))
  exact ⟨h.2.1, h.2.2⟩

/-- C3: a validated exchange appends exactly the pair of rows — the
user row holding the validated question and the bot row holding the
answer text, both referencing the resolved session id, in one commit; a
rejected request appends nothing; and the only other handler touching
the store, admin_history, leaves the messages table unchanged. -/
theorem C3_exchange_two_message_rows (varun_context freshUuid adminSecret secret : String)
    (llm : LLMCall) (msg : ChatMessage) (db : DBState) :
    ((pyStrip msg.message = "" ∨ 60 < (pyWords (pyStrip msg.message)).length) →
      (chat varun_context freshUuid llm msg db).2.messages = db.messages)
    ∧ (pyStrip msg.message ≠ "" → (pyWords (pyStrip msg.message)).length ≤ 60 →
      (chat varun_context freshUuid llm msg db).2.messages =
        db.messages ++
          [{ id := db.nextMsgId,
             session_id := pyOrStr msg.session_id freshUuid,
             sender := "user", content := pyStrip msg.message,
             timestamp := (getOrCreateSession db (pyOrStr msg.session_id freshUuid)).clock },
           { id := db.nextMsgId + 1,
             session_id := pyOrStr msg.session_id freshUuid,
             sender := "bot",
             content := (query_together (buildPrompt varun_context (pyStrip msg.message)) llm).1,
             timestamp := (getOrCreateSession db (pyOrStr msg.session_id freshUuid)).clock }])
    ∧ (admin_history adminSecret secret db).2.messages = db.messages := by
  refine ⟨?_, ?_, ?_⟩
  · intro h
    rcases h with h | h
    · rw [chat_of_empty varun_context freshUuid llm msg db h]
    · rw [chat_of_toolong varun_context freshUuid llm msg db h]
  · intro hne hlen
    rw [chat_of_valid varun_context freshUuid llm msg db hne hlen]
    rw [getOrCreateSession_messages]
  · unfold admin_history
    split <;> rfl

theorem C3_exchange_two_message_rows_witness :
    (chat "ctx" "u-1" LLMCall.networkError
        { message := " hi ", session_id := none } db0).2.messages
      = [{ id := 1, session_id := "u-1", sender := "user", content := "hi", timestamp := 1 },
         { id := 2, session_id := "u-1", sender := "bot", content := llmFallback, timestamp := 1 }]
    ∧ (admin_history "supersecret" "supersecret" db0).2.messages = ([] : List Message) := by
  have h := C3_exchange_two_message_rows "ctx" "u-1" "supersecret" "supersecret"
      LLMCall.networkError { message := " hi ", session_id := none } db0
  exact ⟨(h.2.1 (by decide) (by decide)).trans (by decide), h.2.2⟩

/-- C4: on every failing LLM call — network error, non-2xx status,
malformed body or missing field — query_together returns the fixed
fallback string after exactly one attempt instead of raising, and a
valid /chat request still answers 200 and commits both the user row and
a bot row holding the fallback text. -/
theorem C4_llm_failure_absorbed (varun_context freshUuid prompt : String)
    (call : LLMCall) (msg : ChatMessage) (db : DBState)
    (hfail : llmCallFails call = true)
    (hne : pyStrip msg.message ≠ "")
    (hlen : (pyWords (pyStrip msg.message)).length ≤ 60) :
    query_together prompt call = (llmFallback, 1)
    ∧ (∀ anyPrompt : String, ∀ anyCall : LLMCall,
        (query_together anyPrompt anyCall).2 = 1)
    ∧ (chat varun_context freshUuid call msg db).1
        = ChatResponse.ok ("🤖 " ++ llmFallback) (pyOrStr msg.session_id freshUuid)
    ∧ (chat varun_context freshUuid call msg db).2.messages =
        db.messages ++
          [{ id := db.nextMsgId,
             session_id := pyOrStr msg.session_id freshUuid,
             sender := "user", content := pyStrip msg.message,
             timestamp := (getOrCreateSession db (pyOrStr msg.session_id freshUuid)).clock },
           { id := db.nextMsgId + 1,
             session_id := pyOrStr msg.session_id freshUuid,
             sender := "bot", content := llmFallback,
             timestamp := (getOrCreateSession db (pyOrStr msg.session_id freshUuid)).clock }] := by
  have hq : ∀ p : String, (query_together p call).1 = llmFallback := fun p =>
    congrArg Prod.fst (query_together_of_fails p call hfail)
  refine ⟨query_together_of_fails prompt call hfail, query_together_attempts, ?_, ?_⟩
  · have h := congrArg Prod.fst (chat_of_valid varun_context freshUuid call msg db hne hlen)
    rw [hq] at h
    exact h
  · have h := congrArg (fun p => p.2.messages)
      (chat_of_valid varun_context freshUuid call msg db hne hlen)
    simp only at h
    rw [hq, getOrCreateSession_messages] at h
    exact h

theorem C4_llm_failure_absorbed_witness :
    query_together "p" (LLMCall.response { status := 500, contentField := none })
      = (llmFallback, 1)
    ∧ (chat "ctx" "u-1" (LLMCall.response { status := 500, contentField := none })
        { message := "hi", session_id := some "s1" } db0).1
      = ChatResponse.ok ("🤖 " ++ llmFallback) "s1"
    ∧ (chat "ctx" "u-1" (LLMCall.response { status := 500, contentField := none })
        { message := "hi", session_id := some "s1" } db0).2.messages
      = [{ id := 1, session_id := "s1", sender := "user", content := "hi", timestamp := 1 },
         { id := 2, session_id := "s1", sender := "bot", content := llmFallback, timestamp := 1 }] := by
  have h := C4_llm_failure_absorbed "ctx" "u-1" "p"
      (LLMCall.response { status := 500, contentField := none })
      { message := "hi", session_id := some "s1" } db0 (by decide) (by decide) (by decide)
  exact ⟨h.1, h.2.2.1.trans (by decide), h.2.2.2.trans (by decide)⟩

/-- C5: admin_history compares the presented secret to the configured
one by string equality; on mismatch it answers 403 carrying no session
data, and on match it returns all sessions (a permutation of the table)
ordered by created_at descending, each carrying exactly its own message
rows as a sublist of the messages table, that is, in insertion order. -/
theorem C5_admin_history_dump (adminSecret secret : String) (db : DBState)
    (hmatch : secret = adminSecret) :
    (admin_history adminSecret secret db).1 = AdminResponse.ok (adminDump db)
    ∧ (admin_history adminSecret secret db).2 = db
    ∧ ((adminDump db).map Prod.fst).Perm db.sessions
    ∧ List.Pairwise (fun a b : Session => b.created_at ≤ a.created_at)
        ((adminDump db).map Prod.fst)
    ∧ (∀ p ∈ adminDump db, p.2.Sublist db.messages
        ∧ ∀ m : Message, m ∈ p.2 ↔ m ∈ db.messages ∧ m.session_id = p.1.id)
    ∧ (∀ s, s ≠ adminSecret →
        admin_history adminSecret s db = (.forbidden "❌ Unauthorized", db)) := by
  refine ⟨?_, ?_, ?_, ?_, ?_, ?_⟩
  · unfold admin_history
    rw [if_neg (not_not_intro hmatch)]
  · unfold admin_history
    rw [if_neg (not_not_intro hmatch)]
  · rw [adminDump_map_fst]
    exact List.perm_insertionSort createdDesc db.sessions
  · rw [adminDump_map_fst]
    exact List.sorted_insertionSort createdDesc db.sessions
  · intro p hp
    simp only [adminDump, List.mem_map] at hp
    obtain ⟨s, hs, hps⟩ := hp
    subst hps
    constructor
    · exact List.filter_sublist db.messages
    · intro m
      simp [sessionMessages, List.mem_filter]
  · intro s hs
    unfold admin_history
    rw [if_pos hs]

theorem C5_admin_history_dump_witness :
    (admin_history "supersecret" "supersecret" dbEx).1 = AdminResponse.ok (adminDump dbEx)
    ∧ (admin_history "supersecret" "supersecret" dbEx).2 = dbEx
    ∧ admin_history "supersecret" "nope" dbEx
        = (AdminResponse.forbidden "❌ Unauthorized", dbEx) := by
  have h := C5_admin_history_dump "supersecret" "supersecret" dbEx rfl
  exact ⟨h.1, h.2.1, h.2.2.2.2.2 "nope" (by decide)⟩

/-- C6: calling /chat twice in sequence with the same non-empty
session_id is idempotent on the sessions table: starting from a store
with no row for that id, the two calls leave exactly one Session row
with it, while each call appends exactly two further Message rows. -/
theorem C6_same_session_idempotent (varun_context u1 u2 : String) (llm1 llm2 : LLMCall)
    (m1 m2 sid : String) (db : DBState)
    (hsid : sid ≠ "")
    (h1ne : pyStrip m1 ≠ "") (h1len : (pyWords (pyStrip m1)).length ≤ 60)
    (h2ne : pyStrip m2 ≠ "") (h2len : (pyWords (pyStrip m2)).length ≤ 60)
    (h0 : db.sessions.countP (fun s => s.id == sid) = 0) :
    ((chat varun_context u2 llm2 { message := m2, session_id := some sid }
        (chat varun_context u1 llm1 { message := m1, session_id := some sid } db).2).2.sessions.countP
          (fun s => s.id == sid)) = 1
    ∧ (chat varun_context u1 llm1 { message := m1, session_id := some sid } db).2.messages.length
        = db.messages.length + 2
    ∧ (chat varun_context u2 llm2 { message := m2, session_id := some sid }
        (chat varun_context u1 llm1 { message := m1, session_id := some sid } db).2).2.messages.length
        = db.messages.length + 4 := by
  have e1 : pyOrStr (some sid) u1 = sid := pyOrStr_some_of_ne sid u1 hsid
  have e2 : pyOrStr (some sid) u2 = sid := pyOrStr_some_of_ne sid u2 hsid
  have hex0 : dbGetSessionExists db sid = false := by
    unfold dbGetSessionExists
    rw [List.any_eq_false]
    exact fun x hx => (List.countP_eq_zero.mp h0) x hx
  have hsess1 : (chat varun_context u1 llm1 { message := m1, session_id := some sid } db).2.sessions
      = db.sessions ++ [{ id := sid, created_at := db.clock }] := by
    rw [chat_sessions_of_valid varun_context u1 llm1 _ db h1ne h1len]
    simp only [e1]
    rw [getOrCreateSession_sessions, if_neg (by rw [hex0]; exact Bool.false_ne_true)]
  have hex1 : dbGetSessionExists
      (chat varun_context u1 llm1 { message := m1, session_id := some sid } db).2 sid = true := by
    unfold dbGetSessionExists
    rw [hsess1, List.any_append]
    simp
  have hsess2 : (chat varun_context u2 llm2 { message := m2, session_id := some sid }
      (chat varun_context u1 llm1 { message := m1, session_id := some sid } db).2).2.sessions
      = db.sessions ++ [{ id := sid, created_at := db.clock }] := by
    rw [chat_sessions_of_valid varun_context u2 llm2 _ _ h2ne h2len]
    simp only [e2]
    rw [getOrCreateSession_sessions, if_pos hex1]
    exact hsess1
  have hlen1 := chat_messages_length_of_valid varun_context u1 llm1
      { message := m1, session_id := some sid } db h1ne h1len
  have hlen2 := chat_messages_length_of_valid varun_context u2 llm2
      { message := m2, session_id := some sid }
      (chat varun_context u1 llm1 { message := m1, session_id := some sid } db).2 h2ne h2len
  refine ⟨?_, hlen1, ?_⟩
  · rw [hsess2, List.countP_append, h0]
    simp
  · omega

theorem C6_same_session_idempotent_witness :
    ((chat "ctx" "u-2" LLMCall.networkError { message := "again", session_id := some "s1" }
        (chat "ctx" "u-1" LLMCall.networkError { message := "hi", session_id := some "s1" } db0).2).2.sessions.countP
          (fun s => s.id == "s1")) = 1
    ∧ (chat "ctx" "u-1" LLMCall.networkError { message := "hi", session_id := some "s1" } db0).2.messages.length = 2
    ∧ (chat "ctx" "u-2" LLMCall.networkError { message := "again", session_id := some "s1" }
        (chat "ctx" "u-1" LLMCall.networkError { message := "hi", session_id := some "s1" } db0).2).2.messages.length = 4 := by
  have h := C6_same_session_idempotent "ctx" "u-1" "u-2" LLMCall.networkError LLMCall.networkError
      "hi" "again" "s1" db0 (by decide) (by decide) (by decide) (by decide) (by decide) (by decide)
  exact ⟨h.1, h.2.1, h.2.2⟩

/-- C7: send_feedback chooses the subject New Contact Form Submission
exactly when the type field of the payload equals contact and the
issue-report subject otherwise, and the body contains every key/value
pair formatted as a capitalized Key: value line joined by newlines; in
particular the contact payload with name Jo yields the contact-form
subject and a body with the line Name: Jo. -/
theorem C7_feedback_subject_body (data : List (String × String)) :
    (feedbackSubject data = "New Contact Form Submission"
        ↔ data.lookup "type" = some "contact")
    ∧ (data.lookup "type" ≠ some "contact" → feedbackSubject data = "New Issue Report")
    ∧ (∀ kv ∈ data, ∃ pre post, feedbackBody data = pre ++ feedbackLine kv ++ post)
    ∧ feedbackSubject [("type", "contact"), ("name", "Jo")] = "New Contact Form Submission"
    ∧ feedbackLine ("name", "Jo") = "Name: Jo"
    ∧ "Name: Jo" ∈ splitLines (feedbackBody [("type", "contact"), ("name", "Jo")]) := by
  refine ⟨?_, ?_, ?_, by decide, by decide, by decide⟩
  · unfold feedbackSubject
    split
    · next h =>
      simp only [beq_iff_eq] at h
      simp [h]
    · next h =>
      simp only [beq_iff_eq] at h
      constructor
      · intro he
        exact absurd he (by decide)
      · intro he
        exact absurd he h
  · intro h
    unfold feedbackSubject
    rw [if_neg (by simpa using h)]
  · intro kv hkv
    exact joinLines_mem_split (feedbackLine kv) (data.map feedbackLine)
      (List.mem_map_of_mem feedbackLine hkv)

theorem C7_feedback_subject_body_witness :
    feedbackSubject [("type", "contact"), ("name", "Jo")] = "New Contact Form Submission"
    ∧ feedbackSubject [("type", "bug"), ("name", "Jo")] = "New Issue Report"
    ∧ "Name: Jo" ∈ splitLines (feedbackBody [("type", "contact"), ("name", "Jo")]) := by
  have h := C7_feedback_subject_body [("type", "contact"), ("name", "Jo")]
  have h2 := C7_feedback_subject_body [("type", "bug"), ("name", "Jo")]
  exact ⟨h.2.2.2.1, h2.2.1 (by decide), h.2.2.2.2.2⟩

/-- C8: send_email never raises: when either credential is absent
(Python-falsy), it returns false with no connection attempted and zero
attempts; on any connection, authentication or protocol failure it
returns false rather than raising; and it never makes more than one
attempt (no retry). -/
theorem C8_send_email_never_raises (emailUser emailPass : Option String)
    (smtp : SmtpOutcome) (subject body : String) :
    ((pyTruthy emailUser = false ∨ pyTruthy emailPass = false) →
      send_email emailUser emailPass smtp subject body
        = { success := false, connectionAttempted := false, attempts := 0 })
    ∧ (smtp ≠ .delivered →
      (send_email emailUser emailPass smtp subject body).success = false)
    ∧ (send_email emailUser emailPass smtp subject body).attempts ≤ 1 := by
  refine ⟨?_, ?_, ?_⟩
  · intro h
    unfold send_email
    rw [if_pos]
    rcases h with h | h <;> simp [h]
  · intro h
    unfold send_email
    split
    · rfl
    · cases smtp with
      | delivered => exact absurd rfl h
      | connectionError => rfl
      | authError => rfl
      | protocolError => rfl
  · unfold send_email
    split
    · exact Nat.zero_le 1
    · cases smtp <;> exact Nat.le_refl 1

theorem C8_send_email_never_raises_witness :
    send_email none (some "pass") SmtpOutcome.delivered "s" "b"
      = { success := false, connectionAttempted := false, attempts := 0 }
    ∧ (send_email (some "user") (some "pass") SmtpOutcome.authError "s" "b").success = false
    ∧ (send_email (some "user") (some "pass") SmtpOutcome.delivered "s" "b").attempts ≤ 1 := by
  have h1 := C8_send_email_never_raises none (some "pass") SmtpOutcome.delivered "s" "b"
  have h2 := C8_send_email_never_raises (some "user") (some "pass") SmtpOutcome.authError "s" "b"
  have h3 := C8_send_email_never_raises (some "user") (some "pass") SmtpOutcome.delivered "s" "b"
  exact ⟨h1.1 (Or.inl rfl), h2.2.1 (by decide), h3.2.2⟩

/-- C9: the claim asks that two concurrent /chat requests with the same
brand-new session id never produce two Session rows and never error; the
code races get-then-insert with no handling of the duplicate-key
IntegrityError, so under the schedule in which both requests read before
either commits, the second commit raises and that caller receives a
server error. The theorem evaluates the interleaving at the failing
input: an empty store and session id s1. -/
theorem C9_race_unhandled_integrity_error :
    dbGetSessionExists db0 "s1" = false
    ∧ raceSecondOutcome db0 "s1"
        = PgCommit.integrityError
            "duplicate key value violates unique constraint on sessions primary key" := by
  exact ⟨rfl, by decide⟩

/-- C10: a client-supplied session_id equal to the empty string is
treated as absent: the response carries the freshly generated uuid, not
the supplied empty string, because the resolution is the truthiness test
msg.session_id or str(uuid4()). -/
theorem C10_empty_session_id_treated_absent (varun_context freshUuid : String)
    (llm : LLMCall) (message : String) (db : DBState)
    (hne : pyStrip message ≠ "")
    (hlen : (pyWords (pyStrip message)).length ≤ 60) :
    (chat varun_context freshUuid llm
        { message := message, session_id := some "" } db).1
      = ChatResponse.ok
          ("🤖 " ++ (query_together (buildPrompt varun_context (pyStrip message)) llm).1)
          freshUuid := by
  have h := chat_of_valid varun_context freshUuid llm
      { message := message, session_id := some "" } db hne hlen
  exact congrArg Prod.fst h

theorem C10_empty_session_id_treated_absent_witness :
    (chat "ctx" "uuid-77" LLMCall.networkError
        { message := "who is varun", session_id := some "" } db0).1
      = ChatResponse.ok ("🤖 " ++ llmFallback) "uuid-77" := by
  have h := C10_empty_session_id_treated_absent "ctx" "uuid-77" LLMCall.networkError
      "who is varun" db0 (by decide) (by decide)
  exact h.trans (by decide)

end Pricky
